import Mathlib

/-!
Verification of the buganize response decoder (`src/buganize/api/parser.py` and
`src/buganize/api/models.py`) against its natural-language specification.

The decoder operates on already-parsed JSON values (the output of Python's
`json.loads`), so the embedding works over an inductive `JVal` type of JSON
values. Python-specific dynamic semantics that the source relies on are made
explicit: truthiness, `isinstance` checks (where `bool` is a subclass of
`int`), integer indexing of sequences (with negative-index wraparound), and
numeric coercions. Machine floats are modelled as exact rationals; no claim
below depends on rounding. JSON text parsing itself (`json.loads` and the
anti-XSSI prefix stripping) is outside the embedding: each decoder is embedded
from the point where it has the parsed `data` value in hand.
-/

namespace Buganize

/-- A JSON value as produced by Python's `json.loads`: `None`, `bool`, `int`,
`float` (modelled as an exact rational), `str`, `list`, or a `dict` with
string keys. -/
inductive JVal where
  | jnull
  | jbool (b : Bool)
  | jint (n : Int)
  | jfloat (q : ℚ)
  | jstr (s : String)
  | jlist (xs : List JVal)
  | jdict (kvs : List (String × JVal))

/-- Python truthiness (`bool(v)`): `None`, `False`, zero, empty string and
empty containers are falsy; everything else is truthy. -/
def pyTruthy : JVal → Bool
  | .jnull => false
  | .jbool b => b
  | .jint n => n != 0
  | .jfloat q => q != 0
  | .jstr s => s != ""
  | .jlist xs => !xs.isEmpty
  | .jdict kvs => !kvs.isEmpty

/-- Python `isinstance(v, int)`. `bool` is a subclass of `int` in Python, so
booleans pass this test. -/
def pyIsInt : JVal → Bool
  | .jint _ => true
  | .jbool _ => true
  | _ => false

/-- Python `isinstance(v, (int, float))`: ints, booleans and floats. -/
def pyIsNumber : JVal → Bool
  | .jint _ => true
  | .jbool _ => true
  | .jfloat _ => true
  | _ => false

/-- Python `isinstance(v, str)`. -/
def pyIsStr : JVal → Bool
  | .jstr _ => true
  | _ => false

/-- Python `isinstance(v, list)`. -/
def pyIsList : JVal → Bool
  | .jlist _ => true
  | _ => false

/-- The integer carried by an int-classed value (`int` or `bool`). -/
def pyToInt : JVal → Int
  | .jint n => n
  | .jbool b => if b then 1 else 0
  | _ => 0

/-- `xs[i]` for a Python list and an integer index: negative indices count
from the end, out-of-range indices raise `IndexError` (here: `none`). -/
def listIndex (xs : List JVal) (i : Int) : Option JVal :=
  let i' := if i < 0 then i + xs.length else i
  if i' < 0 then none else xs.get? i'.toNat

/-- `s[i]` for a Python string and an integer index: yields a one-character
string, with the same negative-index and out-of-range rules as lists. -/
def strIndex (s : String) (i : Int) : Option JVal :=
  let cs := s.data
  let i' := if i < 0 then i + cs.length else i
  if i' < 0 then none else (cs.get? i'.toNat).map (fun c => .jstr (String.mk [c]))

/-- `current[index]` for an integer index, as used by `_safe_get`. Lists and
strings subscript positionally; a JSON dict (string keys only) raises
`KeyError` on an integer key; everything else raises `TypeError`. All three
exception cases are `none`. -/
def pyIndex : JVal → Int → Option JVal
  | .jlist xs, i => listIndex xs i
  | .jstr s, i => strIndex s i
  | _, _ => none

/-- The traversal loop of `_safe_get`: follow the indices one by one, and the
moment one subscript fails, return the default. -/
def safeGetGo (dflt : JVal) : JVal → List Int → JVal
  | current, [] => current
  | current, index :: rest =>
    match pyIndex current index with
    | some next => safeGetGo dflt next rest
    | none => dflt

/-- `_safe_get(array, *indices, default=...)` from `parser.py`: safely
traverse nested values by position, returning `dflt` the instant any step
fails. Total by construction — the embedded function cannot raise. -/
def safe_get (array : JVal) (indices : List Int) (dflt : JVal) : JVal :=
  safeGetGo dflt array indices

/-- Specification-side chain lookup: the value reached by following the whole
index chain, or `none` the instant any single step fails. -/
def chainLookup (array : JVal) (indices : List Int) : Option JVal :=
  List.foldlM (fun current index => pyIndex current index) array indices

/-- C1: for every container value, every finite chain of indices and every
default, `_safe_get` returns the value reached by following the chain when
every step succeeds, and returns the caller-supplied default the instant any
step fails (index out of range, container not indexable, or lookup key
absent). The embedded function is total, so it never raises, for arbitrarily
deep index chains and arbitrarily malformed inputs. -/
theorem safe_get_follows_chain (array : JVal) (indices : List Int) (dflt : JVal) :
    safe_get array indices dflt = (chainLookup array indices).getD dflt := by
  induction indices generalizing array with
  | nil => rfl
  | cons index rest ih =>
    simp only [safe_get, safeGetGo, chainLookup, List.foldlM] at *
    cases h : pyIndex array index with
    | none => simp [h]
    | some next => simpa [h] using ih next

/-- Numeric value of a Python value in arithmetic contexts: `int`, `bool`
(`True` counts as 1) and `float`; anything else raises `TypeError` (`none`). -/
def pyToRat : JVal → Option ℚ
  | .jint n => some n
  | .jbool b => some (if b then 1 else 0)
  | .jfloat q => some q
  | _ => none

/-- `_parse_timestamp(raw)`: a `[seconds]` or `[seconds, nanos]` array becomes
the UTC instant `seconds + nanos / 1e9`, modelled as an exact rational number
of epoch seconds; any other shape, or non-numeric entries, yield `none`.
Host-platform range errors of `datetime.fromtimestamp` are not modelled. -/
def parse_timestamp (raw_timestamp : JVal) : Option ℚ :=
  match raw_timestamp with
  | .jlist (x :: rest) =>
    let nanos := match rest with
      | [] => JVal.jint 0
      | y :: _ => y
    match pyToRat x, pyToRat nanos with
    | some seconds, some n => some (seconds + n / 1000000000)
    | _, _ => none
  | _ => none

/-- The loop of `_parse_email`: the first element that is a string and passes
the source's `"@" in item or item` test — which every non-empty string
passes, and the empty string fails. -/
def firstEmail : List JVal → Option String
  | [] => none
  | .jstr s :: rest => if s.data.contains '@' || s != "" then some s else firstEmail rest
  | _ :: rest => firstEmail rest

/-- `_parse_email(user_array)`: extract an email from a user-reference array,
or `none` when the input is falsy or not a list, or no element qualifies. -/
def parse_email (user_array : JVal) : Option String :=
  match user_array with
  | .jlist xs => if xs.isEmpty then none else firstEmail xs
  | _ => none

/-- The loop of `_parse_ccs`: collect the truthy emails of the entries. -/
def ccsLoop : List JVal → List String
  | [] => []
  | entry :: rest =>
    match parse_email entry with
    | some email => if email != "" then email :: ccsLoop rest else ccsLoop rest
    | none => ccsLoop rest

/-- `_parse_ccs(raw_ccs)`: map `_parse_email` over a list of user arrays,
dropping entries that yield no email. -/
def parse_ccs (raw_ccs : JVal) : List String :=
  match raw_ccs with
  | .jlist entries => if entries.isEmpty then [] else ccsLoop entries
  | _ => []

/-- `_parse_int_list(raw_list)`: keep the elements passing Python's
`isinstance(item, int)` (which booleans also pass), in order; non-list
inputs give the empty list. -/
def parse_int_list (raw_list : JVal) : List JVal :=
  match raw_list with
  | .jlist xs => if xs.isEmpty then [] else xs.filter pyIsInt
  | _ => []

/-- Claim-side filter for C8, following the spec's words: keep only the
integer-typed elements, where booleans and floats do not count as integers. -/
def strictIntElements (raw : JVal) : List JVal :=
  match raw with
  | .jlist xs => xs.filter (fun v => match v with | .jint _ => true | _ => false)
  | _ => []

/-- C8 counterexample: on the input list `[True, 2]`, `_parse_int_list` keeps
the boolean `True` (Python's `isinstance(True, int)` holds, since `bool` is a
subclass of `int`), whereas the claim says booleans are excluded, so the two
readings disagree at this input. -/
theorem parse_int_list_keeps_booleans :
    parse_int_list (.jlist [.jbool true, .jint 2]) = [.jbool true, .jint 2] ∧
    strictIntElements (.jlist [.jbool true, .jint 2]) = [.jint 2] ∧
    ([JVal.jbool true, JVal.jint 2] : List JVal) ≠ [JVal.jint 2] := by
  refine ⟨rfl, rfl, ?_⟩
  simp

/-- C8 (amended): for every input list `_parse_int_list` returns exactly the
elements passing Python's `isinstance(·, int)` test — true integers and
booleans, with floats and everything else excluded — in their original order;
for any non-list input it returns the empty list. -/
theorem parse_int_list_isinstance_filter (raw : JVal) :
    parse_int_list raw =
      (match raw with
       | .jlist xs => xs.filter pyIsInt
       | _ => []) := by
  cases raw <;> first
    | rfl
    | (rename_i xs; cases xs <;> simp [parse_int_list])

/-- Claim-side extractor for C9, following the spec's words: the first string
element of the array, whatever it is. -/
def firstStringElement : List JVal → Option String
  | [] => none
  | .jstr s :: _ => some s
  | _ :: rest => firstStringElement rest

/-- The claim-side reading of `_parse_email` for C9: absent exactly when the
input is not a list or contains no string element. -/
def specFirstString (raw : JVal) : Option String :=
  match raw with
  | .jlist xs => firstStringElement xs
  | _ => none

/-- C9 counterexample: on `["", "user@example.com"]` the decoder skips the
empty string (it fails the `"@" in item or item` test) and returns the second
string, whereas the claim's "first string element encountered" is `""`. -/
theorem parse_email_skips_empty_strings :
    parse_email (.jlist [.jstr "", .jstr "user@example.com"]) = some "user@example.com" ∧
    specFirstString (.jlist [.jstr "", .jstr "user@example.com"]) = some "" ∧
    some ("user@example.com" : String) ≠ some "" := by
  refine ⟨by decide, rfl, by simp⟩

/-- Claim-side extractor for the amended C9: the first non-empty string
element of the array. -/
def firstNonemptyString : List JVal → Option String
  | [] => none
  | .jstr s :: rest => if s != "" then some s else firstNonemptyString rest
  | _ :: rest => firstNonemptyString rest

theorem firstEmail_eq_firstNonemptyString (xs : List JVal) :
    firstEmail xs = firstNonemptyString xs := by
  induction xs with
  | nil => rfl
  | cons x rest ih =>
    cases x with
    | jstr s =>
      simp only [firstEmail, firstNonemptyString]
      by_cases h : s = ""
      · have hc : (("" : String).data.contains '@') = false := by decide
        subst h
        simpa [hc] using ih
      · have hb : (s != "") = true := by simpa [bne] using h
        simp [hb]
    | jnull => simpa [firstEmail, firstNonemptyString] using ih
    | jbool b => simpa [firstEmail, firstNonemptyString] using ih
    | jint n => simpa [firstEmail, firstNonemptyString] using ih
    | jfloat q => simpa [firstEmail, firstNonemptyString] using ih
    | jlist l => simpa [firstEmail, firstNonemptyString] using ih
    | jdict d => simpa [firstEmail, firstNonemptyString] using ih

/-- C9 (amended): `_parse_email` returns the first **non-empty** string
element of the user-reference array, and returns absent exactly when the
input is not a list or contains no non-empty string element. -/
theorem parse_email_first_nonempty_string (raw : JVal) :
    parse_email raw =
      (match raw with
       | .jlist xs => firstNonemptyString xs
       | _ => none) := by
  cases raw <;> try rfl
  rename_i xs
  show (if xs.isEmpty then none else firstEmail xs) = firstNonemptyString xs
  cases xs with
  | nil => rfl
  | cons x rest => simpa using firstEmail_eq_firstNonemptyString (x :: rest)

/-- Python equality of a value with an `int` key (as used by dict lookup and
enum member lookup): ints and booleans compare by numeric value, floats
compare equal to an int exactly when they are integral. -/
def pyIntKey : JVal → Option Int
  | .jint n => some n
  | .jbool b => some (if b then 1 else 0)
  | .jfloat q => if q.den = 1 then some q.num else none
  | _ => none

/-- Digits of the decimal fraction `num / den`, truncated at `fuel` digits;
used to render floats approximately the way Python's `repr` renders simple
decimal values. -/
def decimalFrac : Nat → Nat → Nat → String
  | _, _, 0 => ""
  | num, den, fuel + 1 =>
    if num = 0 then ""
    else Nat.repr (num * 10 / den) ++ decimalFrac (num * 10 % den) den fuel

/-- Rendering of a float (modelled as a rational): sign, integer part, and up
to 17 fractional digits. Approximates Python's shortest-round-trip float
`repr`; no claim depends on this rendering. -/
def floatRepr (q : ℚ) : String :=
  let sign := if q.num < 0 then "-" else ""
  let n := q.num.natAbs
  let fracStr := decimalFrac (n % q.den) q.den 17
  sign ++ Nat.repr (n / q.den) ++ "." ++ (if fracStr = "" then "0" else fracStr)

mutual

/-- Python `repr` of a JSON value. String quoting is approximated (escape
sequences are not modelled); no claim depends on these renderings. -/
def pyRepr : JVal → String
  | .jnull => "None"
  | .jbool b => if b then "True" else "False"
  | .jint n => toString n
  | .jfloat q => floatRepr q
  | .jstr s => "\x27" ++ s ++ "\x27"
  | .jlist xs => "[" ++ String.intercalate ", " (pyReprList xs) ++ "]"
  | .jdict kvs => "\x7b" ++ String.intercalate ", " (pyReprDict kvs) ++ "\x7d"

/-- `repr` of the elements of a list. -/
def pyReprList : List JVal → List String
  | [] => []
  | x :: xs => pyRepr x :: pyReprList xs

/-- `repr` of the entries of a dict. -/
def pyReprDict : List (String × JVal) → List String
  | [] => []
  | (k, v) :: kvs => ("\x27" ++ k ++ "\x27: " ++ pyRepr v) :: pyReprDict kvs

end

/-- Python `str` of a JSON value: strings unwrap, everything else renders via
`repr`. Used for `f"field_{id}"` names and `str(value)` coercions. -/
def pyStr : JVal → String
  | .jstr s => s
  | .jnull => pyRepr .jnull
  | .jbool b => pyRepr (.jbool b)
  | .jint n => pyRepr (.jint n)
  | .jfloat q => pyRepr (.jfloat q)
  | .jlist xs => pyRepr (.jlist xs)
  | .jdict kvs => pyRepr (.jdict kvs)

/-- Lookup in an `(Int × String)` member or field-name table. -/
def lookupInt : List (Int × String) → Int → Option String
  | [], _ => none
  | (k, n) :: rest, v => if k = v then some n else lookupInt rest v

/-- A `Status` value: one of the declared `IntEnum` members of `Status` in
`models.py`, or a `_missing_`-synthesized unknown member; identified by its
numeric value and its name. -/
structure Status where
  value : Int
  name : String
deriving DecidableEq, Inhabited

/-- The declared members of `Status`. -/
def statusMembers : List (Int × String) :=
  [(1, "NEW"), (2, "ASSIGNED"), (3, "ACCEPTED"), (4, "FIXED"), (5, "VERIFIED"),
   (6, "NOT_REPRODUCIBLE"), (7, "INTENDED_BEHAVIOR"), (8, "OBSOLETE"),
   (9, "INFEASIBLE"), (10, "DUPLICATE")]

/-- `Status(code)` on an integer code: the declared member when the code is
known, otherwise the `_missing_` hook synthesizes an `UNKNOWN_<n>` member
carrying the same numeric value. Total — never raises. -/
def Status.ofInt (value : Int) : Status :=
  match lookupInt statusMembers value with
  | some n => ⟨value, n⟩
  | none => ⟨value, "UNKNOWN_" ++ toString value⟩

/-- The `Status.NEW` member. -/
def Status.NEW : Status := Status.ofInt 1

/-- A `Priority` value: a declared `P0`–`P4` member or a `_missing_`-made
unknown member. -/
structure Priority where
  value : Int
  name : String
deriving DecidableEq, Inhabited

/-- The declared members of `Priority`. -/
def priorityMembers : List (Int × String) :=
  [(0, "P0"), (1, "P1"), (2, "P2"), (3, "P3"), (4, "P4")]

/-- `Priority(code)` on an integer code, with the `_missing_` hook
synthesizing a `P<n>` member for unknown codes. Total — never raises. -/
def Priority.ofInt (value : Int) : Priority :=
  match lookupInt priorityMembers value with
  | some n => ⟨value, n⟩
  | none => ⟨value, "P" ++ toString value⟩

/-- The `Priority.P0` member. -/
def Priority.P0 : Priority := Priority.ofInt 0

/-- The `Priority.P2` member. -/
def Priority.P2 : Priority := Priority.ofInt 2

/-- The `Priority.P4` member. -/
def Priority.P4 : Priority := Priority.ofInt 4

/-- An `IssueType` value: a declared member or a `_missing_`-made unknown
member. -/
structure IssueType where
  value : Int
  name : String
deriving DecidableEq, Inhabited

/-- The declared members of `IssueType`. -/
def typeMembers : List (Int × String) :=
  [(1, "BUG"), (2, "FEATURE_REQUEST"), (3, "CUSTOMER_ISSUE"),
   (4, "INTERNAL_CLEANUP"), (5, "PROCESS"), (6, "VULNERABILITY")]

/-- `IssueType(code)` on an integer code, with the `_missing_` hook
synthesizing a `TYPE_<n>` member for unknown codes. Total — never raises. -/
def IssueType.ofInt (value : Int) : IssueType :=
  match lookupInt typeMembers value with
  | some n => ⟨value, n⟩
  | none => ⟨value, "TYPE_" ++ toString value⟩

/-- The known status codes (values of declared members). -/
def statusKnownCodes : List Int := statusMembers.map Prod.fst

/-- The known priority codes. -/
def priorityKnownCodes : List Int := priorityMembers.map Prod.fst

/-- The known issue-type codes. -/
def typeKnownCodes : List Int := typeMembers.map Prod.fst

theorem lookupInt_eq_none (t : List (Int × String)) (v : Int)
    (h : v ∉ t.map Prod.fst) : lookupInt t v = none := by
  induction t with
  | nil => rfl
  | cons p rest ih =>
    obtain ⟨k, n⟩ := p
    simp only [List.map_cons, List.mem_cons, not_or] at h
    have hk : ¬(k = v) := fun hkv => h.1 hkv.symm
    simp only [lookupInt, if_neg hk]
    exact ih h.2

/-- C7: for every integer code outside the known set of status, priority, or
issue-type codes, constructing the enumerated value does not raise (the
embedded constructors are total) and synthesizes a self-describing unknown
member — `UNKNOWN_<n>`, `P<n>`, `TYPE_<n>` respectively — whose raw numeric
value equals the input code, so decoding is lossless. -/
theorem enum_missing_lossless (code : Int) :
    (code ∉ statusKnownCodes →
      (Status.ofInt code).value = code ∧
      (Status.ofInt code).name = "UNKNOWN_" ++ toString code) ∧
    (code ∉ priorityKnownCodes →
      (Priority.ofInt code).value = code ∧
      (Priority.ofInt code).name = "P" ++ toString code) ∧
    (code ∉ typeKnownCodes →
      (IssueType.ofInt code).value = code ∧
      (IssueType.ofInt code).name = "TYPE_" ++ toString code) := by
  refine ⟨fun h => ?_, fun h => ?_, fun h => ?_⟩
  · rw [Status.ofInt, lookupInt_eq_none _ _ h]
    exact ⟨rfl, rfl⟩
  · rw [Priority.ofInt, lookupInt_eq_none _ _ h]
    exact ⟨rfl, rfl⟩
  · rw [IssueType.ofInt, lookupInt_eq_none _ _ h]
    exact ⟨rfl, rfl⟩

/-- Witness for C7 at the concrete unknown code 99. -/
theorem enum_missing_lossless_witness :
    ((99 : Int) ∉ statusKnownCodes ∧ (99 : Int) ∉ priorityKnownCodes ∧
      (99 : Int) ∉ typeKnownCodes) ∧
    ((Status.ofInt 99).value = 99 ∧ (Status.ofInt 99).name = "UNKNOWN_99") ∧
    ((Priority.ofInt 99).value = 99 ∧ (Priority.ofInt 99).name = "P99") ∧
    ((IssueType.ofInt 99).value = 99 ∧ (IssueType.ofInt 99).name = "TYPE_99") := by
  refine ⟨⟨by decide, by decide, by decide⟩, ?_, ?_, ?_⟩
  · exact (enum_missing_lossless 99).1 (by decide)
  · exact (enum_missing_lossless 99).2.1 (by decide)
  · exact (enum_missing_lossless 99).2.2 (by decide)

/-- The `CUSTOM_FIELD_IDS` table from `models.py`: the 24 well-known numeric
custom field IDs and their canonical names. -/
def CUSTOM_FIELD_IDS : List (Int × String) :=
  [(1225362, "backlog_rank"), (1223033, "build_number"), (1223031, "chromium_labels"),
   (1222907, "component_tags"), (1223136, "cve"), (1410892, "cwe_id"),
   (1223032, "design_doc"), (1223131, "design_summary"), (1225337, "estimated_days"),
   (1223081, "flaky_test"), (1223087, "merge"), (1223134, "merge_request"),
   (1223085, "milestone"), (1225154, "next_action"), (1223083, "notice"),
   (1223084, "os"), (1223086, "release_block"), (1223034, "respin"),
   (1300460, "irm_link"), (1223088, "security_release"), (1223135, "vrp_reward"),
   (1358989, "fixed_by_code_changes"), (1253656, "component_ancestor_tags"),
   (1544844, "introduced_in")]

/-- `CUSTOM_FIELD_IDS.get(field_id, f"field_{field_id}")`: dict lookup under
Python key equality, falling back to a synthesized `field_<id>` name. -/
def customFieldName (field_id : JVal) : String :=
  match (pyIntKey field_id).bind (lookupInt CUSTOM_FIELD_IDS) with
  | some name => name
  | none => "field_" ++ pyStr field_id

/-- The value shapes `_parse_custom_field_values` can store in its result
mapping: a numeric wire value (int, bool or float), a flattened list of
strings from a label/enum slot, or a display string. -/
inductive CFValue where
  | num (v : JVal)
  | strs (ls : List String)
  | txt (s : String)

/-- Lookup in a Python dict modelled as an insertion-ordered association
list. -/
def lookupPy {α : Type} : List (String × α) → String → Option α
  | [], _ => none
  | (k0, v) :: rest, k => if k0 = k then some v else lookupPy rest k

/-- `d[k] = v` on a Python dict: update the entry in place when the key is
present, append otherwise. -/
def insertPy {α : Type} : List (String × α) → String → α → List (String × α)
  | [], k, v => [(k, v)]
  | (k0, v0) :: rest, k, v =>
    if k0 = k then (k, v) :: rest else (k0, v0) :: insertPy rest k v

/-- The removal effect of `d.pop(k, None)`: drop the entry holding `k`. -/
def popPy {α : Type} : List (String × α) → String → List (String × α)
  | [], _ => []
  | (k0, v0) :: rest, k => if k0 = k then rest else (k0, v0) :: popPy rest k

/-- String content of a JSON value, if it is a string. -/
def asStr : JVal → Option String
  | .jstr s => some s
  | _ => none

/-- The label/enum flattening loop of `_parse_custom_field_values`: list
groups contribute their string elements, bare strings contribute themselves,
anything else is skipped; group boundaries are discarded. -/
def flattenGroups : List JVal → List String
  | [] => []
  | .jlist group :: rest => group.filterMap asStr ++ flattenGroups rest
  | .jstr s :: rest => s :: flattenGroups rest
  | _ :: rest => flattenGroups rest

/-- The `flat_labels` computation for one entry: the label slot at index 5,
flattened when it is a truthy list, empty otherwise. -/
def flatLabelsOf (entry : JVal) : List String :=
  match safe_get entry [5] .jnull with
  | .jlist groups => if pyTruthy (.jlist groups) then flattenGroups groups else []
  | _ => []

/-- The `flat_enums` computation for one entry: the enum slot at index 7,
flattened when it is a truthy list, empty otherwise. -/
def flatEnumsOf (entry : JVal) : List String :=
  match safe_get entry [7] .jnull with
  | .jlist groups => if pyTruthy (.jlist groups) then flattenGroups groups else []
  | _ => []

/-- The per-entry classification of `_parse_custom_field_values`, probing the
slots of one field entry in the source's order: numeric value at index 4,
label list at index 5, enum list at index 7, display string at index 9;
`none` when no probe matches and the entry contributes nothing. -/
def classifyFieldEntry (entry : JVal) : Option CFValue :=
  let numeric_value := safe_get entry [4] .jnull
  if pyIsNumber numeric_value then some (.num numeric_value)
  else
    let flat_labels := flatLabelsOf entry
    if !flat_labels.isEmpty then some (.strs flat_labels)
    else
      let flat_enums := flatEnumsOf entry
      if !flat_enums.isEmpty then some (.strs flat_enums)
      else
        match safe_get entry [9] .jnull with
        | .jstr s => if s != "" then some (.txt s) else none
        | _ => none

/-- The entry loop of `_parse_custom_field_values`: skip non-list and empty
entries, name each remaining entry from its slot-0 field ID, and store its
classified value (if any) into the mapping, overwriting any earlier value
stored under the same name. -/
def cfLoop : List JVal → List (String × CFValue) → List (String × CFValue)
  | [], parsed_fields => parsed_fields
  | entry :: rest, parsed_fields =>
    match entry with
    | .jlist (e0 :: _) =>
      let field_name := customFieldName e0
      match classifyFieldEntry entry with
      | some v => cfLoop rest (insertPy parsed_fields field_name v)
      | none => cfLoop rest parsed_fields
    | _ => cfLoop rest parsed_fields

/-- `_parse_custom_field_values(raw_field_entries)`: the name-to-value
mapping decoded from the custom field entry list. -/
def parse_custom_field_values (raw_field_entries : JVal) : List (String × CFValue) :=
  match raw_field_entries with
  | .jlist entries => if entries.isEmpty then [] else cfLoop entries []
  | _ => []

/-- Claim-side probe 1 for C3: a numeric value in the slot at index 4. -/
def numericProbe (entry : JVal) : Option CFValue :=
  let v := safe_get entry [4] .jnull
  if pyIsNumber v then some (.num v) else none

/-- Claim-side probe 2 for C3: a label list at index 5 flattening to at least
one string. -/
def labelProbe (entry : JVal) : Option CFValue :=
  let flat := flatLabelsOf entry
  if flat.isEmpty then none else some (.strs flat)

/-- Claim-side probe 3 for C3: an enum list at index 7 flattening to at least
one string. -/
def enumProbe (entry : JVal) : Option CFValue :=
  let flat := flatEnumsOf entry
  if flat.isEmpty then none else some (.strs flat)

/-- Claim-side probe 4 for C3: a non-empty display string at index 9. -/
def displayProbe (entry : JVal) : Option CFValue :=
  match safe_get entry [9] .jnull with
  | .jstr s => if s != "" then some (.txt s) else none
  | _ => none

/-- C3: for every custom-field entry, the classification probes the slots in
the strict priority order numeric, label list, enum list, display string —
the first matching probe wins and the entry contributes nothing when none
match. In particular, whenever the numeric slot is populated (so also when
the label slot is populated alongside it), the numeric classification wins
and the numeric wire value is stored. -/
theorem classify_first_match_wins (entry : JVal) :
    classifyFieldEntry entry =
      ((numericProbe entry).orElse fun _ =>
        ((labelProbe entry).orElse fun _ =>
          ((enumProbe entry).orElse fun _ => displayProbe entry))) ∧
    (pyIsNumber (safe_get entry [4] .jnull) = true →
      classifyFieldEntry entry = some (.num (safe_get entry [4] .jnull))) := by
  constructor
  · simp only [classifyFieldEntry, numericProbe, labelProbe, enumProbe, displayProbe]
    by_cases h4 : pyIsNumber (safe_get entry [4] .jnull) = true
    · simp [h4, Option.orElse]
    · simp only [Bool.not_eq_true] at h4
      by_cases h5 : (flatLabelsOf entry).isEmpty
      · by_cases h7 : (flatEnumsOf entry).isEmpty
        · simp [h4, h5, h7, Option.orElse]
        · simp [h4, h5, h7, Option.orElse]
      · simp [h4, h5, Option.orElse]
  · intro h4
    simp [classifyFieldEntry, h4]

/-- Witness for C3 at a concrete entry whose numeric slot (index 4) and label
slot (index 5) are both populated: the numeric classification wins. -/
theorem classify_first_match_wins_witness :
    classifyFieldEntry
      (.jlist [.jint 1, .jnull, .jnull, .jnull, .jint 7, .jlist [.jlist [.jstr "L"]]]) =
      some (.num (.jint 7)) :=
  (classify_first_match_wins _).2 rfl

theorem lookupPy_insertPy_self {α : Type} (m : List (String × α)) (k : String) (v : α) :
    lookupPy (insertPy m k v) k = some v := by
  induction m with
  | nil => simp [insertPy, lookupPy]
  | cons p rest ih =>
    obtain ⟨k0, v0⟩ := p
    by_cases h : k0 = k
    · simp [insertPy, h, lookupPy]
    · simp [insertPy, h, lookupPy, ih]

theorem lookupPy_insertPy_ne {α : Type} (m : List (String × α)) (k k' : String) (v : α)
    (h : k' ≠ k) : lookupPy (insertPy m k' v) k = lookupPy m k := by
  induction m with
  | nil => simp [insertPy, lookupPy, h]
  | cons p rest ih =>
    obtain ⟨k0, v0⟩ := p
    by_cases h0 : k0 = k'
    · subst h0
      simp [insertPy, lookupPy, h, fun hc : k0 = k => h (hc ▸ rfl)]
    · simp only [insertPy, if_neg h0, lookupPy]
      by_cases hk : k0 = k
      · simp [hk]
      · simp [hk, ih]

theorem getLast?_cons_orElse {α : Type} (a : α) (l : List α) :
    (a :: l).getLast? = (l.getLast?).orElse (fun _ => some a) := by
  induction l generalizing a with
  | nil => rfl
  | cons b t ih =>
    rw [List.getLast?_cons_cons]
    cases hbt : (b :: t).getLast? with
    | none => simp at hbt
    | some x => simp [hbt]

/-- Claim-side per-entry contribution for C10: the classified value one entry
contributes to a given field name — `none` when the entry is skipped (not a
list, or empty), carries a different name in slot 0, or classifies to
nothing. -/
def entryContribution (name : String) (entry : JVal) : Option CFValue :=
  match entry with
  | .jlist (e0 :: _) =>
    if customFieldName e0 = name then classifyFieldEntry entry else none
  | _ => none

theorem cfLoop_lookup (entries : List JVal) (acc : List (String × CFValue)) (name : String) :
    lookupPy (cfLoop entries acc) name =
      ((entries.filterMap (entryContribution name)).getLast?).orElse
        (fun _ => lookupPy acc name) := by
  induction entries generalizing acc with
  | nil => simp [cfLoop]
  | cons entry rest ih =>
    cases entry with
    | jlist xs =>
      cases xs with
      | nil => simpa [cfLoop, entryContribution] using ih acc
      | cons e0 es =>
        rw [List.filterMap_cons]
        by_cases hn : customFieldName e0 = name
        · cases hc : classifyFieldEntry (.jlist (e0 :: es)) with
          | none =>
            have hce : entryContribution name (JVal.jlist (e0 :: es)) = none := by
              simp [entryContribution, hn, hc]
            simp only [cfLoop, hc, hce]
            exact ih acc
          | some v =>
            have hce : entryContribution name (JVal.jlist (e0 :: es)) = some v := by
              simp [entryContribution, hn, hc]
            simp only [cfLoop, hc, hce]
            rw [hn, ih (insertPy acc name v), lookupPy_insertPy_self,
              getLast?_cons_orElse]
            cases hlast : (List.filterMap (entryContribution name) rest).getLast? with
            | none => simp [hlast]
            | some x => simp [hlast]
        · cases hc : classifyFieldEntry (.jlist (e0 :: es)) with
          | none =>
            have hce : entryContribution name (JVal.jlist (e0 :: es)) = none := by
              simp [entryContribution, hn, hc]
            simp only [cfLoop, hc, hce]
            exact ih acc
          | some v =>
            have hce : entryContribution name (JVal.jlist (e0 :: es)) = none := by
              simp [entryContribution, hn]
            simp only [cfLoop, hc, hce]
            rw [ih (insertPy acc (customFieldName e0) v),
              lookupPy_insertPy_ne _ _ _ _ hn]
    | jnull => simpa [cfLoop, entryContribution] using ih acc
    | jbool b => simpa [cfLoop, entryContribution] using ih acc
    | jint n => simpa [cfLoop, entryContribution] using ih acc
    | jfloat q => simpa [cfLoop, entryContribution] using ih acc
    | jstr s => simpa [cfLoop, entryContribution] using ih acc
    | jdict d => simpa [cfLoop, entryContribution] using ih acc

/-- C10 (implicit behavior): for every custom-field entry list and every
field name, the value the decoded mapping holds under that name is the
classified value of the **last** entry mapping to that name that produced a
value — later entries silently overwrite earlier ones under the same name,
and entries that classify to nothing leave the earlier value in place. -/
theorem custom_fields_last_write_wins (entries : List JVal) (name : String) :
    lookupPy (parse_custom_field_values (.jlist entries)) name =
      (entries.filterMap (entryContribution name)).getLast? := by
  have h := cfLoop_lookup entries [] name
  cases entries with
  | nil => rfl
  | cons e es =>
    have hne : parse_custom_field_values (.jlist (e :: es)) = cfLoop (e :: es) [] := by
      simp [parse_custom_field_values]
    rw [hne, h]
    cases hlast : ((e :: es).filterMap (entryContribution name)).getLast? with
    | none => simp [hlast, lookupPy]
    | some x => simp [hlast]

/-- The `Issue` dataclass of this package's `models.py`. Fields whose wire
slots are passed through without a type guarantee are kept as raw `JVal`;
note the dataclass declares `labels` and **no** `chromium_labels` field. -/
structure Issue where
  id : JVal
  title : JVal
  status : Status
  priority : Priority
  issue_type : Option IssueType
  reporter : Option String
  owner : Option String
  verifier : Option String
  component_id : JVal
  ccs : List String
  created_at : Option ℚ
  modified_at : Option ℚ
  verified_at : Option ℚ
  comment_count : JVal
  star_count : JVal
  tracker_id : JVal
  last_modifier : Option String
  hotlist_ids : List JVal
  blocking_issue_ids : List JVal
  component_tags : List String
  component_ancestor_tags : List String
  labels : List String
  os : List String
  milestone : List String
  merge : List String
  merge_request : List String
  release_block : List String
  cve : List String
  cwe_id : Option ℚ
  vrp_reward : Option ℚ
  estimated_days : Option ℚ
  build_number : Option String
  flaky_test : Option String
  next_action : Option String
  notice : Option String
  introduced_in : Option String
  irm_link : Option String
  security_release : List String
  fixed_by_code_changes : List String
  custom_fields : List (String × CFValue)

/-- The `details` value `parse_issue_from_entry` extracts: slot 2 of the
entry with default `[]`, and falsy values replaced by `[]` (the trailing
`or []`). -/
def detailsOf (raw_entry : JVal) : JVal :=
  let d := safe_get raw_entry [2] (.jlist [])
  if pyTruthy d then d else .jlist []

/-- The live `priority_value` statements of `parse_issue_from_entry`: the
raw 1-indexed slot at details index 3 with default 3; integer values
re-index by subtracting 1, non-integers default to the raw code 2. The
subsequent `Priority(priority_value)` construction is a keyword argument of
the `Issue(...)` call and is never evaluated at runtime (see
`parse_issue_from_entry`). -/
def priorityValueOf (raw_entry : JVal) : Int :=
  let priority_raw := safe_get (detailsOf raw_entry) [3] (.jint 3)
  if pyIsInt priority_raw then pyToInt priority_raw - 1 else 2

/-- `parse_issue_from_entry(raw_entry)`, embedded faithfully from the source
as it runs. The statements through the `custom_fields` decode execute (the
nested `pop_*` functions are merely defined, never invoked), and then the
`return Issue(...)` statement resolves the callee name first: `Issue` is
imported only under `TYPE_CHECKING`, so the call raises
`NameError: name Issue is not defined` **before any keyword argument is
evaluated** — the `Status(...)`, `Priority(...)` and `IssueType(...)`
constructions and the `pop_*` calls in the argument list never run. (Were
the imports made real, the call would still fail: it passes a
`chromium_labels=` keyword that this package's `Issue` dataclass does not
declare — it declares `labels`; the sibling `buganise` package's dataclass
does declare `chromium_labels`.) -/
def parse_issue_from_entry (raw_entry : JVal) : Except String Issue :=
  let issue_id := safe_get raw_entry [1] (.jint 0)
  let details := detailsOf raw_entry
  let component_id := safe_get details [0] .jnull
  let issue_type_detail := safe_get details [1] .jnull
  let status_value := safe_get details [2] (.jint 1)
  let priority_value := priorityValueOf raw_entry
  let title0 := safe_get details [5] (.jstr "")
  let title := if pyTruthy title0 then title0 else JVal.jstr ""
  let reporter_array := safe_get details [6] .jnull
  let verifier_array := safe_get details [7] .jnull
  let ccs_array := safe_get details [9] .jnull
  let hotlist_ids_array := safe_get details [13] .jnull
  let custom_field_entries := safe_get details [14] .jnull
  let blocking_ids_array := safe_get details [21] .jnull
  let created_timestamp := safe_get raw_entry [4] .jnull
  let modified_timestamp := safe_get raw_entry [5] .jnull
  let verified_timestamp := safe_get raw_entry [6] .jnull
  let star_count0 := safe_get raw_entry [9] (.jint 0)
  let star_count := if pyIsInt star_count0 then star_count0 else JVal.jint 0
  let issue_type_value := issue_type_detail
  let comment_count0 := safe_get raw_entry [11] (.jint 0)
  let comment_count := if pyTruthy comment_count0 then comment_count0 else JVal.jint 0
  let owner_array := safe_get raw_entry [13] .jnull
  let tracker_id := safe_get raw_entry [41] .jnull
  let last_modifier_array := safe_get raw_entry [47] .jnull
  let custom_fields := parse_custom_field_values custom_field_entries
  .error "NameError: name Issue is not defined"

/-- C2 (code bug): the issue-entry decoder can never return an `Issue` at
all, so no custom field is ever promoted to a named attribute: `Issue` (like
`Status`, `Priority` and `IssueType`) is imported only under
`TYPE_CHECKING`, so the `return Issue(...)` statement raises `NameError` on
every call; even with real imports the `chromium_labels=` keyword would make
the dataclass raise `TypeError`. Evaluated here at the minimal entry `[]`. -/
theorem issue_entry_decoder_raises :
    parse_issue_from_entry (.jlist []) =
      .error "NameError: name Issue is not defined" := rfl

/-- C6 (code bug): the decoder's live statements do compute the re-indexed
raw priority code — wire value 1 gives 0, wire value 5 gives 4, and a
non-integer slot defaults to the raw code 2 — and the `Priority` enum of
`models.py` (live, importable standalone) maps those codes to the
most-urgent `P0`, the least-urgent known `P4`, and `P2`. But the
`Priority(priority_value)` construction is a keyword argument of the
`Issue(...)` call, whose callee name is unbound at runtime (`Issue` and
`Priority` are `TYPE_CHECKING`-only imports), so every call raises
`NameError` before any enumerated priority value is constructed: nothing
ever decodes to `P0`. Evaluated at concrete entries carrying wire
priorities 1, 5 and a non-integer. -/
theorem priority_reindexing_unreachable :
    parse_issue_from_entry (.jlist [.jnull, .jint 7, .jlist [.jnull, .jnull, .jnull, .jint 1]]) =
      .error "NameError: name Issue is not defined" ∧
    priorityValueOf (.jlist [.jnull, .jint 7, .jlist [.jnull, .jnull, .jnull, .jint 1]]) = 0 ∧
    priorityValueOf (.jlist [.jnull, .jint 7, .jlist [.jnull, .jnull, .jnull, .jint 5]]) = 4 ∧
    priorityValueOf (.jlist [.jnull, .jint 7, .jlist [.jnull, .jnull, .jnull, .jstr "x"]]) = 2 ∧
    Priority.ofInt 0 = Priority.P0 ∧
    Priority.ofInt 4 = Priority.P4 ∧
    Priority.ofInt 2 = Priority.P2 :=
  ⟨rfl, rfl, rfl, rfl, rfl, rfl, rfl⟩

instance : Inhabited JVal := ⟨.jnull⟩

/-- The `Comment` dataclass. `issue_id` and `comment_number` are raw wire
values (`sequence_number + 1` stays a float when the wire value is one). -/
structure Comment where
  issue_id : JVal
  comment_number : JVal
  author : Option String
  timestamp : Option ℚ
  body : JVal

/-- The `FieldChange` dataclass; old/new values are never extracted. -/
structure FieldChange where
  field : String
  old_value : Option String
  new_value : Option String

/-- The `IssueUpdate` dataclass. -/
structure IssueUpdate where
  issue_id : JVal
  sequence_number : JVal
  author : Option String
  timestamp : Option ℚ
  comment : Option Comment
  field_changes : List FieldChange

/-- The `IssueUpdatesResult` dataclass: updates newest-first as returned by
the API, plus pagination data. -/
structure IssueUpdatesResult where
  updates : List IssueUpdate
  total_count : JVal
  next_page_token : Option JVal
deriving Inhabited

/-- The `IssueUpdatesResult.comments` property: only the updates that have
comments, taken over the reversed updates list (chronological, oldest
first). -/
def IssueUpdatesResult.comments (r : IssueUpdatesResult) : List Comment :=
  (r.updates.reverse).filterMap (fun u => u.comment)

/-- The entry loop of `_parse_field_changes` as it runs: entries that are
non-empty lists compute their `field_name` (slot 0, coerced with `str()`
when not already a string) and then `changes.append(FieldChange(...))`
resolves the callee name — `FieldChange` is a `TYPE_CHECKING`-only import,
so the first valid entry raises `NameError`; with no valid entry the loop
returns the empty list. -/
def fcLoop : List JVal → Except String (List FieldChange)
  | [] => .ok []
  | .jlist (e0 :: _) :: _ =>
    let field_name := match e0 with
      | .jstr s => s
      | v => pyStr v
    .error "NameError: name FieldChange is not defined"
  | _ :: rest => fcLoop rest

/-- `_parse_field_changes(raw_changes)` as it runs: `[]` for falsy or
non-list inputs, otherwise the loop above. -/
def parse_field_changes (raw_changes : JVal) : Except String (List FieldChange) :=
  match raw_changes with
  | .jlist entries => if entries.isEmpty then .ok [] else fcLoop entries
  | _ => .ok []

/-- `_parse_comment(raw_comment, issue_id)` as it runs: `None` when the
input is falsy or not a list (a live path); otherwise the slot extractions
execute and then `return Comment(...)` resolves the callee name —
`Comment` is a `TYPE_CHECKING`-only import, so every truthy list-shaped
comment raises `NameError` before `sequence_number + 1` or any other
argument is evaluated. -/
def parse_comment (raw_comment : JVal) (issue_id : JVal) :
    Except String (Option Comment) :=
  if !pyTruthy raw_comment then .ok none
  else match raw_comment with
    | .jlist _ =>
      let comment_text0 := safe_get raw_comment [0] (.jstr "")
      let comment_text := if pyTruthy comment_text0 then comment_text0 else JVal.jstr ""
      let author_array := safe_get raw_comment [2] .jnull
      let timestamp_array := safe_get raw_comment [3] .jnull
      let sequence_number0 := safe_get raw_comment [6] (.jint 0)
      let sequence_number :=
        if pyTruthy sequence_number0 then sequence_number0 else JVal.jint 0
      .error "NameError: name Comment is not defined"
    | _ => .ok none

/-- The per-entry body of the `parse_updates_response` loop as it runs: the
slot extractions and the `comment` statement execute (so a truthy
list-shaped comment raises the `Comment` `NameError` first), and then
`updates.append(IssueUpdate(...))` resolves the callee name — `IssueUpdate`
is a `TYPE_CHECKING`-only import, so every list-shaped update entry raises
`NameError` before any of the call's arguments (including the
`_parse_field_changes` call) is evaluated. -/
def parseUpdateEntry (update_entry : JVal) : Except String IssueUpdate :=
  let issue_id0 := safe_get update_entry [9] (.jint 0)
  let issue_id := if pyTruthy issue_id0 then issue_id0 else JVal.jint 0
  let author_array := safe_get update_entry [0] .jnull
  let timestamp_array := safe_get update_entry [1] .jnull
  let comment_array := safe_get update_entry [2] .jnull
  let sequence_number := safe_get update_entry [3] .jnull
  let changes_array := safe_get update_entry [5] .jnull
  match (if pyTruthy comment_array then parse_comment comment_array issue_id
         else .ok none) with
  | .error e => .error e
  | .ok _ => .error "NameError: name IssueUpdate is not defined"

/-- Python iteration (`for x in v`): lists yield their elements, strings
their one-character substrings, dicts their keys; other values raise
`TypeError` (`none`). -/
def pyIterate : JVal → Option (List JVal)
  | .jlist xs => some xs
  | .jstr s => some (s.data.map (fun c => .jstr (String.mk [c])))
  | .jdict kvs => some (kvs.map (fun kv => .jstr kv.1))
  | _ => none

/-- The update loop of `parse_updates_response`: skip entries that are not
lists, decode the rest in order, propagating any raised error. -/
def updatesLoop : List JVal → Except String (List IssueUpdate)
  | [] => .ok []
  | update_entry :: rest =>
    if !pyIsList update_entry then updatesLoop rest
    else
      match parseUpdateEntry update_entry with
      | .error e => .error e
      | .ok u =>
        match updatesLoop rest with
        | .error e => .error e
        | .ok us => .ok (u :: us)

/-- The raw updates list `parse_updates_response` iterates:
`_safe_get(data, 0, default=[])`, then slot 1, then slot 0, with falsy
values replaced by `[]`. -/
def rawUpdatesOf (data : JVal) : JVal :=
  let response_wrapper := safe_get data [0] (.jlist [])
  let result_block := safe_get response_wrapper [1] (.jlist [])
  let ru := safe_get result_block [0] (.jlist [])
  if pyTruthy ru then ru else .jlist []

/-- `parse_updates_response` from the parsed `data` value on, as it runs:
the envelope extractions and the update loop execute, and whenever the loop
completes (which requires that no entry was list-shaped), the final
`return IssueUpdatesResult(...)` resolves the callee name —
`IssueUpdatesResult` is a `TYPE_CHECKING`-only import, so even a response
with zero update entries raises `NameError`: no updates response is ever
decoded. -/
def parse_updates_data (data : JVal) : Except String IssueUpdatesResult :=
  let result_block := safe_get (safe_get data [0] (.jlist [])) [1] (.jlist [])
  let raw_updates := rawUpdatesOf data
  let page_token := safe_get result_block [1] .jnull
  let total_count0 := safe_get result_block [2] (.jint 0)
  let total_count := if pyTruthy total_count0 then total_count0 else JVal.jint 0
  match pyIterate raw_updates with
  | none => .error "TypeError: updates value is not iterable"
  | some entries =>
    match updatesLoop entries with
    | .error e => .error e
    | .ok _ => .error "NameError: name IssueUpdatesResult is not defined"

/-- The concrete two-update response used for C4: a newer and an older
update, both comment-bearing, newest first. -/
def wUpdatesData : JVal :=
  .jlist [.jlist [.jstr "b.ListIssueUpdatesResponse",
    .jlist [.jlist [
      .jlist [.jnull, .jlist [.jint 1700001000], .jlist [.jstr "newer", .jnull,
        .jnull, .jnull, .jnull, .jnull, .jint 1], .jint 2, .jnull, .jnull,
        .jnull, .jnull, .jnull, .jint 55],
      .jlist [.jnull, .jlist [.jint 1700000000], .jlist [.jstr "older", .jnull,
        .jnull, .jnull, .jnull, .jnull, .jint 0], .jint 1, .jnull, .jnull,
        .jnull, .jnull, .jnull, .jint 55]],
      .jstr "tok", .jint 2]]]

/-- A hand-constructed newer comment (the `models.py` dataclasses are live,
importable standalone). -/
def wNewerComment : Comment := ⟨.jint 1, .jint 3, none, none, .jstr "newer"⟩

/-- A hand-constructed older comment. -/
def wOlderComment : Comment := ⟨.jint 1, .jint 1, none, none, .jstr "older"⟩

/-- A hand-constructed updates result: three updates newest first, the
middle one without a comment. -/
def wManualResult : IssueUpdatesResult :=
  ⟨[⟨.jint 1, .jint 3, none, none, some wNewerComment, []⟩,
    ⟨.jint 1, .jint 2, none, none, none, []⟩,
    ⟨.jint 1, .jint 1, none, none, some wOlderComment, []⟩],
   .jint 3, none⟩

/-- C4 (code bug): no updates response is ever decoded — `Comment`,
`IssueUpdate`, `FieldChange` and `IssueUpdatesResult` are imported only
under `TYPE_CHECKING`, so `parse_updates_response` raises `NameError` on
every call: with zero update entries at the final `IssueUpdatesResult(...)`
(first conjunct, the empty response `[]`), and on a comment-bearing entry
already at `Comment(...)` (second conjunct). The `comments` property itself,
live in `models.py`, does equal the reverse of the comment-bearing
subsequence of `updates` on a hand-constructed result (third conjunct) —
the decoder just never produces one. -/
theorem updates_decoder_raises :
    parse_updates_data (.jlist []) =
      .error "NameError: name IssueUpdatesResult is not defined" ∧
    parse_updates_data wUpdatesData =
      .error "NameError: name Comment is not defined" ∧
    wManualResult.comments =
      (wManualResult.updates.filterMap (fun u => u.comment)).reverse :=
  ⟨rfl, rfl, rfl⟩

/-- The shape heuristic of `parse_issue_detail_response`: a candidate is
taken as the issue entry when it is a list whose second slot holds an
integer (Python's `isinstance`, so booleans also pass). -/
def detailPred (candidate : JVal) : Bool :=
  pyIsList candidate && pyIsInt (safe_get candidate [1] .jnull)

/-- The backward index loop `for i in range(len(payload) - 1, -1, -1)`,
expressed over the reversed payload: the first match in back-to-front
order. -/
def scanBackRev : List JVal → Option JVal
  | [] => none
  | c :: rest => if detailPred c then some c else scanBackRev rest

/-- The payload extraction of `parse_issue_detail_response`:
`_safe_get(data, 0, default=[])` then slot 1 with default `[]`. -/
def payloadOf (data : JVal) : JVal :=
  safe_get (safe_get data [0] (.jlist [])) [1] (.jlist [])

/-- `parse_issue_detail_response` from the parsed `data` value on: scan the
payload backward for the first shape-matching element and decode it; raise
`ValueError` when none exists. -/
def parse_issue_detail_data (data : JVal) : Except String Issue :=
  let payload := payloadOf data
  let issue_entry : Option JVal :=
    match payload with
    | .jlist xs => if xs.isEmpty then none else scanBackRev xs.reverse
    | _ => none
  match issue_entry with
  | none => .error "Could not locate issue entry in getIssue response"
  | some entry => parse_issue_from_entry entry

theorem scanBackRev_eq_find (l : List JVal) : scanBackRev l = l.find? detailPred := by
  induction l with
  | nil => rfl
  | cons c rest ih =>
    by_cases h : detailPred c
    · simp [scanBackRev, List.find?_cons, h]
    · simp [scanBackRev, List.find?_cons, h, ih]

/-- C5: for every detail-fetch response, the decoder scans the payload array
from the end backward and decodes the first element in that scan order that
is a list whose second slot is an integer; exactly when no such element
exists (including when the payload is not a list at all) it fails with the
decode error "Could not locate issue entry in getIssue response" — a hard
failure rather than a silently defaulted issue. -/
theorem detail_scan_backward (data : JVal) :
    (match payloadOf data with
     | .jlist xs =>
       (match xs.reverse.find? detailPred with
        | some entry => parse_issue_detail_data data = parse_issue_from_entry entry
        | none =>
          parse_issue_detail_data data =
            .error "Could not locate issue entry in getIssue response")
     | _ =>
       parse_issue_detail_data data =
         .error "Could not locate issue entry in getIssue response") := by
  cases hp : payloadOf data with
  | jlist xs =>
    cases xs with
    | nil => simp [parse_issue_detail_data, hp]
    | cons y ys =>
      dsimp only
      rw [← scanBackRev_eq_find]
      cases hf : scanBackRev (y :: ys).reverse with
      | none =>
        rw [List.reverse_cons] at hf
        simp [parse_issue_detail_data, hp, hf]
      | some entry =>
        rw [List.reverse_cons] at hf
        simp [parse_issue_detail_data, hp, hf]
  | jnull => simp [parse_issue_detail_data, hp]
  | jbool b => simp [parse_issue_detail_data, hp]
  | jint n => simp [parse_issue_detail_data, hp]
  | jfloat q => simp [parse_issue_detail_data, hp]
  | jstr s => simp [parse_issue_detail_data, hp]
  | jdict kvs => simp [parse_issue_detail_data, hp]

end Buganize
